import Mathlib

/-!
Shallow embedding of `src/pipeline/Advanced_pipeline.py` (a pandas batch
data-consolidation pipeline) and verification of the frozen claims about it.

Modelling conventions:
* a pandas DataFrame is a `List` of row structures; a nullable cell (NaN) is
  an `Option`;
* numeric columns are `Rat` (pandas float arithmetic on the small exact
  decimals appearing here is exact);
* a pandas left merge (`how='left'`) concatenates, in left-row order, the
  matched right rows of each left row (in right-table order), or one row with
  nulled right-side fields when there is no match;
* the Discounts flat file is read with `header=None`; a failed or empty read
  is substituted by `pd.DataFrame()`, which has no columns at all.  Every
  realizable empty Discounts table is therefore column-less, so an empty
  `List Discount` models it.  Line 79 (`discounts['discount_percent']`) then
  raises an uncaught `KeyError`; the pipeline models this as the error value
  `PipeError.keyErrorDiscounts`;
* `exit(1)` at the validation gate (line 76) is `PipeError.criticalDataMissing`;
* `df.get('unit_price', 100)` (line 93) is a column-level fallback: the
  `ProductsTable.hasUnitPrice` flag records whether the `unit_price` column
  exists in the Products CSV, and the scalar default 100 is applied exactly
  when it does not;
* `pd.to_datetime(..., errors='coerce')` followed by `dropna` is a filter by
  an abstract parse function `String → Option Date`; the theorems quantify
  over it, and `parseDate` below is a concrete executable model (ISO
  `YYYY-MM-DD`) used by witnesses;
* `df['sale_date'].dt.to_period('M')` is the pair `(year, month)`;
* `groupby` keeps group keys in a canonical duplicate-free order (pandas
  sorts them; no claim depends on inter-group order) and, as in pandas,
  drops rows whose group key is null (`dropna=True` default);
* columns added later in the script (`discount_percent` before the merge with
  Discounts, `total_price` etc. before line 94) are carried as fields that
  hold `none` until the statement that creates them runs.
-/

/-- A row of the `customers` table (read from SQLite; never used downstream). -/
structure Customer where
  customer_id : Int
deriving DecidableEq

/-- A row of the `products` CSV.  `unit_price` is `none` for an empty cell. -/
structure Product where
  product_id : Int
  product_name : String
  unit_price : Option Rat
deriving DecidableEq

/-- The `products` DataFrame: its rows plus whether the optional `unit_price`
column exists at all (`df.get('unit_price', 100)` distinguishes exactly
column absence, not cell nullness).  When `hasUnitPrice = false` the
`unit_price` fields of `rows` are meaningless and ignored. -/
structure ProductsTable where
  rows : List Product
  hasUnitPrice : Bool
deriving DecidableEq

/-- A row of the `sales` CSV (the driving table of the merge). -/
structure Sale where
  sale_id : Int
  product_id : Int
  employee_id : Int
  quantity : Rat
  sale_date : String
deriving DecidableEq

/-- A row of the `discounts` flat file (two positional columns). -/
structure Discount where
  product_id : Int
  discount_percent : Option Rat
deriving DecidableEq

/-- A row of the employees table fetched from the REST API. -/
structure Employee where
  id : Int
  employee_name : String
deriving DecidableEq

/-- A row of the working DataFrame `df` as it evolves through the merges
(lines 83-95).  Fields that pandas only creates later hold `none` until the
corresponding statement runs. -/
structure MRow where
  sale_id : Int
  product_id : Int
  employee_id : Int
  quantity : Rat
  sale_date : String
  product_name : Option String
  unit_price : Option Rat
  discount_percent : Option Rat
  employee_name : Option String
  total_price : Option Rat
  discounted_price : Option Rat
deriving DecidableEq

/-- A parsed calendar date (the value of a `sale_date` cell after
`pd.to_datetime` succeeded). -/
structure Date where
  year : Nat
  month : Nat
  day : Nat
deriving DecidableEq

/-- A row of the final DataFrame (after the date filter of line 99 and the
`month` column of line 117): a UnifiedRecord. -/
structure URow where
  sale_id : Int
  product_id : Int
  employee_id : Int
  quantity : Rat
  product_name : Option String
  unit_price : Option Rat
  discount_percent : Option Rat
  employee_name : Option String
  total_price : Option Rat
  discounted_price : Option Rat
  sale_date : Date
  month : Nat × Nat
deriving DecidableEq

/-- Leap-year rule used by the concrete date model. -/
def isLeap (y : Nat) : Bool :=
  (y % 4 == 0 && y % 100 != 0) || (y % 400 == 0)

/-- Number of days of month `m` of year `y`. -/
def daysInMonth (y m : Nat) : Nat :=
  if m == 2 then (if isLeap y then 29 else 28)
  else if m == 4 || m == 6 || m == 9 || m == 11 then 30
  else 31

/-- Split a character list at every dash. -/
def splitDash : List Char → List (List Char)
  | [] => [[]]
  | c :: rest =>
    match splitDash rest with
    | [] => [[]]
    | g :: gs => if c = '-' then [] :: g :: gs else (c :: g) :: gs

/-- Read a decimal numeral, failing on any non-digit. -/
def digitsVal : List Char → Nat → Option Nat
  | [], acc => some acc
  | c :: rest, acc =>
    if c.isDigit then digitsVal rest (acc * 10 + (c.toNat - 48)) else none

/-- Read a non-empty decimal numeral. -/
def parseNatStr (cs : List Char) : Option Nat :=
  if cs.isEmpty then none else digitsVal cs 0

/-- Concrete model of `pd.to_datetime(..., errors='coerce')` on the ISO
`YYYY-MM-DD` strings this repository's data uses; every other string coerces
to `NaT`, i.e. `none`.  The claim theorems quantify over an arbitrary parse
function; this one is used by the concrete witnesses. -/
def parseDate (s : String) : Option Date :=
  match splitDash s.toList with
  | [y, m, d] =>
    match parseNatStr y, parseNatStr m, parseNatStr d with
    | some yn, some mn, some dn =>
      if 1 ≤ mn && mn ≤ 12 && 1 ≤ dn && dn ≤ daysInMonth yn mn then
        some ⟨yn, mn, dn⟩
      else none
    | _, _, _ => none
  | _ => none

/-- Line 79: `discounts['discount_percent'] = discounts['discount_percent'].fillna(0)`.
Only reachable when the Discounts table is non-empty (hence has its columns). -/
def fillDiscounts (discounts : List Discount) : List Discount :=
  discounts.map fun d => { d with discount_percent := some (d.discount_percent.getD 0) }

/-- The block of merged rows one Sale row contributes in
`sales.merge(products, on="product_id", how="left")` (line 83): all matching
Product rows in table order, or a single row with nulled product fields. -/
def prodMatch (prods : List Product) (s : Sale) : List MRow :=
  let ps := prods.filter fun p => p.product_id == s.product_id
  if ps.isEmpty then
    [{ sale_id := s.sale_id, product_id := s.product_id, employee_id := s.employee_id,
       quantity := s.quantity, sale_date := s.sale_date, product_name := none,
       unit_price := none, discount_percent := none, employee_name := none,
       total_price := none, discounted_price := none }]
  else
    ps.map fun p =>
      { sale_id := s.sale_id, product_id := s.product_id, employee_id := s.employee_id,
        quantity := s.quantity, sale_date := s.sale_date, product_name := some p.product_name,
        unit_price := p.unit_price, discount_percent := none, employee_name := none,
        total_price := none, discounted_price := none }

/-- Line 83: `df = sales.merge(products, on="product_id", how="left")`. -/
def mergeProducts (sales : List Sale) (prods : List Product) : List MRow :=
  sales.flatMap (prodMatch prods)

/-- The block of rows one merged row contributes in
`df.merge(discounts, on="product_id", how="left")` (line 84). -/
def discMatch (discounts : List Discount) (r : MRow) : List MRow :=
  let ds := discounts.filter fun d => d.product_id == r.product_id
  if ds.isEmpty then [{ r with discount_percent := none }]
  else ds.map fun d => { r with discount_percent := d.discount_percent }

/-- Line 84: `df = df.merge(discounts, on="product_id", how="left")`. -/
def mergeDiscounts (rows : List MRow) (discounts : List Discount) : List MRow :=
  rows.flatMap (discMatch discounts)

/-- The block of rows one merged row contributes in the Employees merge
(line 86). -/
def empMatch (employees : List Employee) (r : MRow) : List MRow :=
  let es := employees.filter fun e => e.id == r.employee_id
  if es.isEmpty then [{ r with employee_name := none }]
  else es.map fun e => { r with employee_name := some e.employee_name }

/-- Lines 85-88: merge with `employees[['id','employee_name']]` when the
Employees table is non-empty, otherwise `df['employee_name'] = "Unknown"`. -/
def mergeEmployees (rows : List MRow) (employees : List Employee) : List MRow :=
  if employees.isEmpty then rows.map fun r => { r with employee_name := some "Unknown" }
  else rows.flatMap (empMatch employees)

/-- The whole merge block (lines 83-88), with the Discounts table already
filled by line 79. -/
def mergedDF (sales : List Sale) (products : ProductsTable)
    (discounts : List Discount) (employees : List Employee) : List MRow :=
  mergeEmployees
    (mergeDiscounts (mergeProducts sales products.rows) (fillDiscounts discounts))
    employees

/-- Lines 92-95: fill null `discount_percent` with 0, resolve `unit_price`
(`df.get('unit_price', 100)` keeps the existing column — nulls included —
when it exists, and is the scalar 100 when the column is absent), then derive
`total_price` and `discounted_price` with pandas NaN-propagating arithmetic. -/
def computeRow (hasUP : Bool) (r : MRow) : MRow :=
  let dp : Rat := r.discount_percent.getD 0
  let up : Option Rat := if hasUP then r.unit_price else some 100
  let total : Option Rat := up.map fun u => r.quantity * u
  { r with discount_percent := some dp, unit_price := up, total_price := total,
           discounted_price := total.map fun t => t * (1 - dp / 100) }

/-- Build a UnifiedRecord from a merged-and-computed row once its
`sale_date` has parsed: lines 98 (in-place datetime) and 117 (`month`). -/
def finishRow (r : MRow) (d : Date) : URow :=
  { sale_id := r.sale_id, product_id := r.product_id, employee_id := r.employee_id,
    quantity := r.quantity, product_name := r.product_name, unit_price := r.unit_price,
    discount_percent := r.discount_percent, employee_name := r.employee_name,
    total_price := r.total_price, discounted_price := r.discounted_price,
    sale_date := d, month := (d.year, d.month) }

/-- Lines 98-99: coerce `sale_date` and drop the rows where it failed to
parse; line 117's `month` column is stamped on the surviving rows. -/
def dateFilter (parse : String → Option Date) (rows : List MRow) : List URow :=
  rows.filterMap fun r => (parse r.sale_date).map (finishRow r)

/-- The final UnifiedRecord table (the `df` written to
`full_sales_data.csv`). -/
def unifiedDF (parse : String → Option Date) (sales : List Sale)
    (products : ProductsTable) (discounts : List Discount)
    (employees : List Employee) : List URow :=
  dateFilter parse ((mergedDF sales products discounts employees).map
    (computeRow products.hasUnitPrice))

/-- One groupby summary of lines 105-114: group by an optional string key
(pandas drops null-keyed rows), summing `quantity` into `total_quantity` and
`discounted_price` into `total_sales` (pandas `sum` treats NaN as 0). -/
def sumBy (key : URow → Option String) (rows : List URow) : List (String × Rat × Rat) :=
  ((rows.filterMap key).dedup).map fun k =>
    let grp := rows.filter fun r => key r == some k
    (k, (grp.map fun r => r.quantity).sum, (grp.map fun r => r.discounted_price.getD 0).sum)

/-- Lines 117-120: group by the (never-null) `month` column, summing
`discounted_price` into `total_sales`. -/
def monthlyAgg (rows : List URow) : List ((Nat × Nat) × Rat) :=
  ((rows.map fun r => r.month).dedup).map fun k =>
    (k, ((rows.filter fun r => r.month == k).map fun r => r.discounted_price.getD 0).sum)

/-- The four artifacts the pipeline writes to the report directory
(lines 124-127). -/
structure Output where
  unified : List URow
  product_sales : List (String × Rat × Rat)
  employee_sales : List (String × Rat × Rat)
  monthly_sales : List ((Nat × Nat) × Rat)
deriving DecidableEq

/-- The two ways the script terminates without writing any report:
`exit(1)` at the validation gate (line 76), and the uncaught `KeyError`
raised by line 79 when the Discounts table is empty (an empty DataFrame has
no `discount_percent` column).  Both end the process with non-zero status. -/
inductive PipeError where
  | criticalDataMissing
  | keyErrorDiscounts
deriving DecidableEq

/-- The payload of a successful run. -/
def okOutput (parse : String → Option Date) (sales : List Sale)
    (products : ProductsTable) (discounts : List Discount)
    (employees : List Employee) : Output :=
  let u := unifiedDF parse sales products discounts employees
  { unified := u
    product_sales := sumBy (fun r => r.product_name) u
    employee_sales := sumBy (fun r => r.employee_name) u
    monthly_sales := monthlyAgg u }

/-- The whole pipeline, from the validation gate (line 74) to the report
payloads (lines 105-127).  `customers` is read by the script but never used
(the spec records this).  An `.error` result means the process terminated
with non-zero status and wrote no report artifact. -/
def pipeline (parse : String → Option Date) (customers : List Customer)
    (sales : List Sale) (products : ProductsTable) (discounts : List Discount)
    (employees : List Employee) : Except PipeError Output :=
  if sales.isEmpty || products.rows.isEmpty then .error .criticalDataMissing
  else if discounts.isEmpty then .error .keyErrorDiscounts
  else .ok (okOutput parse sales products discounts employees)

/-! ### Structural lemmas about the merge block -/

theorem mergeEmployees_nil (E : List Employee) : mergeEmployees [] E = [] := by
  unfold mergeEmployees
  split <;> rfl

theorem mergeEmployees_append (l1 l2 : List MRow) (E : List Employee) :
    mergeEmployees (l1 ++ l2) E = mergeEmployees l1 E ++ mergeEmployees l2 E := by
  unfold mergeEmployees
  split
  · exact List.map_append _ _ _
  · exact List.flatMap_append _ _ _

theorem mergedDF_nil (P : ProductsTable) (D : List Discount) (E : List Employee) :
    mergedDF [] P D E = [] := by
  simp [mergedDF, mergeProducts, mergeDiscounts, mergeEmployees_nil]

theorem mergedDF_append (l1 l2 : List Sale) (P : ProductsTable) (D : List Discount)
    (E : List Employee) :
    mergedDF (l1 ++ l2) P D E = mergedDF l1 P D E ++ mergedDF l2 P D E := by
  simp [mergedDF, mergeProducts, mergeDiscounts, List.flatMap_append, mergeEmployees_append]

theorem mergedDF_flatMap (sales : List Sale) (P : ProductsTable) (D : List Discount)
    (E : List Employee) :
    mergedDF sales P D E = sales.flatMap fun s => mergedDF [s] P D E := by
  induction sales with
  | nil => simp [mergedDF_nil]
  | cons s rest ih =>
    have h : mergedDF (s :: rest) P D E = mergedDF [s] P D E ++ mergedDF rest P D E := by
      simpa using mergedDF_append [s] rest P D E
    rw [h, ih]
    simp

theorem unifiedDF_nil (parse : String → Option Date) (P : ProductsTable)
    (D : List Discount) (E : List Employee) : unifiedDF parse [] P D E = [] := by
  simp [unifiedDF, dateFilter, mergedDF_nil]

theorem unifiedDF_append (parse : String → Option Date) (l1 l2 : List Sale)
    (P : ProductsTable) (D : List Discount) (E : List Employee) :
    unifiedDF parse (l1 ++ l2) P D E =
      unifiedDF parse l1 P D E ++ unifiedDF parse l2 P D E := by
  unfold unifiedDF dateFilter
  rw [mergedDF_append, List.map_append, List.filterMap_append]

theorem unifiedDF_flatMap (parse : String → Option Date) (sales : List Sale)
    (P : ProductsTable) (D : List Discount) (E : List Employee) :
    unifiedDF parse sales P D E = sales.flatMap fun s => unifiedDF parse [s] P D E := by
  induction sales with
  | nil => simp [unifiedDF_nil]
  | cons s rest ih =>
    have h : unifiedDF parse (s :: rest) P D E =
        unifiedDF parse [s] P D E ++ unifiedDF parse rest P D E := by
      simpa using unifiedDF_append parse [s] rest P D E
    rw [h, ih]
    simp

/-! ### Row-level inversion lemmas for the three merges -/

/-- Fields a Discounts merge leaves untouched. -/
def sameExceptDisc (a b : MRow) : Prop :=
  a.sale_id = b.sale_id ∧ a.product_id = b.product_id ∧ a.employee_id = b.employee_id ∧
  a.quantity = b.quantity ∧ a.sale_date = b.sale_date ∧ a.product_name = b.product_name ∧
  a.unit_price = b.unit_price ∧ a.employee_name = b.employee_name

/-- Fields the Employees merge (or the `"Unknown"` column assignment) leaves
untouched. -/
def sameExceptEmp (a b : MRow) : Prop :=
  a.sale_id = b.sale_id ∧ a.product_id = b.product_id ∧ a.employee_id = b.employee_id ∧
  a.quantity = b.quantity ∧ a.sale_date = b.sale_date ∧ a.product_name = b.product_name ∧
  a.unit_price = b.unit_price ∧ a.discount_percent = b.discount_percent

theorem mem_discMatch {D : List Discount} {r r' : MRow} (h : r' ∈ discMatch D r) :
    sameExceptDisc r' r := by
  unfold discMatch at h
  by_cases hd : (D.filter fun d => d.product_id == r.product_id).isEmpty
  · simp only [hd, if_true] at h
    rw [List.mem_singleton] at h
    subst h
    exact ⟨rfl, rfl, rfl, rfl, rfl, rfl, rfl, rfl⟩
  · simp only [hd, if_false] at h
    obtain ⟨d, _, rfl⟩ := List.mem_map.1 h
    exact ⟨rfl, rfl, rfl, rfl, rfl, rfl, rfl, rfl⟩

theorem mem_mergeDiscounts {D : List Discount} {l : List MRow} {r' : MRow}
    (h : r' ∈ mergeDiscounts l D) : ∃ r ∈ l, sameExceptDisc r' r := by
  obtain ⟨r, hr, hm⟩ := List.mem_flatMap.1 h
  exact ⟨r, hr, mem_discMatch hm⟩

theorem mem_empMatch {E : List Employee} {r r' : MRow} (h : r' ∈ empMatch E r) :
    sameExceptEmp r' r ∧
      (((∀ e ∈ E, ¬e.id = r.employee_id) ∧ r'.employee_name = none) ∨
        ∃ e ∈ E, e.id = r.employee_id ∧ r'.employee_name = some e.employee_name) := by
  unfold empMatch at h
  by_cases he : (E.filter fun e => e.id == r.employee_id).isEmpty
  · simp only [he, if_true] at h
    rw [List.mem_singleton] at h
    subst h
    refine ⟨⟨rfl, rfl, rfl, rfl, rfl, rfl, rfl, rfl⟩, .inl ⟨?_, rfl⟩⟩
    intro e heE hid
    have : e ∈ E.filter fun e => e.id == r.employee_id := by
      rw [List.mem_filter]
      exact ⟨heE, by simpa using hid⟩
    rw [List.isEmpty_iff.1 he] at this
    exact absurd this (List.not_mem_nil e)
  · simp only [he, if_false] at h
    obtain ⟨e, heF, rfl⟩ := List.mem_map.1 h
    rw [List.mem_filter] at heF
    exact ⟨⟨rfl, rfl, rfl, rfl, rfl, rfl, rfl, rfl⟩,
      .inr ⟨e, heF.1, by simpa using heF.2, rfl⟩⟩

theorem mem_mergeEmployees {E : List Employee} {l : List MRow} {m : MRow}
    (h : m ∈ mergeEmployees l E) :
    ∃ r ∈ l, sameExceptEmp m r ∧
      ((E = [] ∧ m.employee_name = some "Unknown") ∨
        (E ≠ [] ∧
          (((∀ e ∈ E, ¬e.id = r.employee_id) ∧ m.employee_name = none) ∨
            ∃ e ∈ E, e.id = r.employee_id ∧ m.employee_name = some e.employee_name))) := by
  unfold mergeEmployees at h
  by_cases he : E.isEmpty
  · rw [if_pos he] at h
    obtain ⟨r, hr, rfl⟩ := List.mem_map.1 h
    exact ⟨r, hr, ⟨rfl, rfl, rfl, rfl, rfl, rfl, rfl, rfl⟩,
      .inl ⟨List.isEmpty_iff.1 he, rfl⟩⟩
  · rw [if_neg he] at h
    obtain ⟨r, hr, hm⟩ := List.mem_flatMap.1 h
    obtain ⟨hsame, hcases⟩ := mem_empMatch hm
    refine ⟨r, hr, hsame, .inr ⟨?_, hcases⟩⟩
    intro hE
    rw [hE] at he
    exact he rfl

theorem mem_prodMatch {P : List Product} {s : Sale} {r : MRow} (h : r ∈ prodMatch P s) :
    r.sale_id = s.sale_id ∧ r.product_id = s.product_id ∧ r.employee_id = s.employee_id ∧
    r.quantity = s.quantity ∧ r.sale_date = s.sale_date ∧ r.discount_percent = none ∧
    r.employee_name = none ∧
    (((∀ p ∈ P, ¬p.product_id = s.product_id) ∧ r.product_name = none ∧ r.unit_price = none) ∨
      ∃ p ∈ P, p.product_id = s.product_id ∧ r.product_name = some p.product_name ∧
        r.unit_price = p.unit_price) := by
  unfold prodMatch at h
  by_cases hp : (P.filter fun p => p.product_id == s.product_id).isEmpty
  · simp only [hp, if_true] at h
    rw [List.mem_singleton] at h
    subst h
    refine ⟨rfl, rfl, rfl, rfl, rfl, rfl, rfl, .inl ⟨?_, rfl, rfl⟩⟩
    intro p hpP hid
    have : p ∈ P.filter fun p => p.product_id == s.product_id := by
      rw [List.mem_filter]
      exact ⟨hpP, by simpa using hid⟩
    rw [List.isEmpty_iff.1 hp] at this
    exact absurd this (List.not_mem_nil p)
  · simp only [hp, if_false] at h
    obtain ⟨p, hpF, rfl⟩ := List.mem_map.1 h
    rw [List.mem_filter] at hpF
    exact ⟨rfl, rfl, rfl, rfl, rfl, rfl, rfl,
      .inr ⟨p, hpF.1, by simpa using hpF.2, rfl, rfl⟩⟩

theorem mem_mergeProducts {P : List Product} {sales : List Sale} {r : MRow}
    (h : r ∈ mergeProducts sales P) :
    ∃ s ∈ sales, r.sale_id = s.sale_id ∧ r.product_id = s.product_id ∧
      r.employee_id = s.employee_id ∧ r.quantity = s.quantity ∧ r.sale_date = s.sale_date ∧
      r.discount_percent = none ∧ r.employee_name = none ∧
      (((∀ p ∈ P, ¬p.product_id = s.product_id) ∧ r.product_name = none ∧
          r.unit_price = none) ∨
        ∃ p ∈ P, p.product_id = s.product_id ∧ r.product_name = some p.product_name ∧
          r.unit_price = p.unit_price) := by
  obtain ⟨s, hs, hm⟩ := List.mem_flatMap.1 h
  exact ⟨s, hs, mem_prodMatch hm⟩

theorem mem_dateFilter {parse : String → Option Date} {rows : List MRow} {u : URow}
    (h : u ∈ dateFilter parse rows) :
    ∃ r ∈ rows, ∃ d, parse r.sale_date = some d ∧ u = finishRow r d := by
  obtain ⟨r, hr, hm⟩ := List.mem_filterMap.1 h
  obtain ⟨d, hd, hu⟩ := Option.map_eq_some'.1 hm
  exact ⟨r, hr, d, hd, hu.symm⟩

theorem mem_unifiedDF {parse : String → Option Date} {sales : List Sale}
    {P : ProductsTable} {D : List Discount} {E : List Employee} {u : URow}
    (h : u ∈ unifiedDF parse sales P D E) :
    ∃ m ∈ mergedDF sales P D E, ∃ d, parse m.sale_date = some d ∧
      u = finishRow (computeRow P.hasUnitPrice m) d := by
  obtain ⟨r, hr, d, hd, hu⟩ := mem_dateFilter h
  obtain ⟨m, hm, rfl⟩ := List.mem_map.1 hr
  exact ⟨m, hm, d, hd, hu⟩

/-! ### Cardinality lemmas -/

theorem sum_map_one {α : Type} (l : List α) : (l.map fun _ => (1 : Nat)).sum = l.length := by
  induction l with
  | nil => rfl
  | cons a rest ih =>
    simp [ih]
    omega

theorem prodMatch_length {P : List Product} {s : Sale}
    (hP : (P.filter fun p => p.product_id == s.product_id).length ≤ 1) :
    (prodMatch P s).length = 1 := by
  unfold prodMatch
  cases h : P.filter fun p => p.product_id == s.product_id with
  | nil => simp [h]
  | cons p ps =>
    cases ps with
    | nil => simp [h]
    | cons q qs =>
      rw [h] at hP
      simp at hP

theorem discMatch_length (D : List Discount) (r : MRow) :
    (discMatch D r).length = max 1 (D.filter fun d => d.product_id == r.product_id).length := by
  unfold discMatch
  cases h : D.filter fun d => d.product_id == r.product_id with
  | nil => simp [h]
  | cons d ds => simp [h, Nat.max_def]

theorem empMatch_length {E : List Employee} {r : MRow}
    (hE : (E.filter fun e => e.id == r.employee_id).length ≤ 1) :
    (empMatch E r).length = 1 := by
  unfold empMatch
  cases h : E.filter fun e => e.id == r.employee_id with
  | nil => simp [h]
  | cons e es =>
    cases es with
    | nil => simp [h]
    | cons f fs =>
      rw [h] at hE
      simp at hE

theorem mergeDiscounts_length (l : List MRow) (D : List Discount) :
    (mergeDiscounts l D).length =
      (l.map fun r => max 1 (D.filter fun d => d.product_id == r.product_id).length).sum := by
  unfold mergeDiscounts
  rw [List.length_flatMap]
  congr 1
  apply List.map_congr_left
  intro r _
  exact discMatch_length D r

theorem mergeEmployees_length {l : List MRow} {E : List Employee}
    (hE : ∀ eid, (E.filter fun e => e.id == eid).length ≤ 1) :
    (mergeEmployees l E).length = l.length := by
  unfold mergeEmployees
  split
  · exact List.length_map _ _
  · rw [List.length_flatMap]
    have h1 : l.map (List.length ∘ empMatch E) = l.map fun _ => (1 : Nat) :=
      List.map_congr_left fun r _ => empMatch_length (hE r.employee_id)
    rw [h1, sum_map_one]

theorem fillDiscounts_filter_length (D : List Discount) (pid : Int) :
    ((fillDiscounts D).filter fun d => d.product_id == pid).length =
      (D.filter fun d => d.product_id == pid).length := by
  unfold fillDiscounts
  rw [List.filter_map, List.length_map]
  congr 1

/-- The block of merged rows a single Sale row contributes has, under the
uniqueness preconditions, exactly `max 1 (number of matching Discount rows)`
rows. -/
theorem mergedDF_single_length {P : ProductsTable} {E : List Employee} (s : Sale)
    (D : List Discount)
    (hP : ∀ pid, (P.rows.filter fun p => p.product_id == pid).length ≤ 1)
    (hE : ∀ eid, (E.filter fun e => e.id == eid).length ≤ 1) :
    (mergedDF [s] P D E).length =
      max 1 (D.filter fun d => d.product_id == s.product_id).length := by
  unfold mergedDF
  rw [mergeEmployees_length hE, mergeDiscounts_length]
  have hMP : mergeProducts [s] P.rows = prodMatch P.rows s := by
    simp [mergeProducts]
  rw [hMP]
  have hpid : ∀ r ∈ prodMatch P.rows s, r.product_id = s.product_id := by
    intro r hr
    exact (mem_prodMatch hr).2.1
  cases h : prodMatch P.rows s with
  | nil =>
    have := prodMatch_length (P := P.rows) (s := s) (hP s.product_id)
    rw [h] at this
    simp at this
  | cons r rs =>
    have hlen := prodMatch_length (P := P.rows) (s := s) (hP s.product_id)
    rw [h] at hlen
    simp at hlen
    subst hlen
    have hr : r.product_id = s.product_id := hpid r (by rw [h]; exact List.mem_cons_self r [])
    simp [hr, fillDiscounts_filter_length]

/-! ### Counting through the transform and date filter -/

theorem dateFilter_length (parse : String → Option Date) (rows : List MRow) :
    (dateFilter parse rows).length =
      (rows.filter fun r => (parse r.sale_date).isSome).length := by
  unfold dateFilter
  induction rows with
  | nil => rfl
  | cons r rest ih =>
    cases h : parse r.sale_date <;>
      simp [List.filterMap_cons, List.filter_cons, h, ih]

theorem computeRow_sale_date (hasUP : Bool) (r : MRow) :
    (computeRow hasUP r).sale_date = r.sale_date := rfl

theorem unifiedDF_length (parse : String → Option Date) (sales : List Sale)
    (P : ProductsTable) (D : List Discount) (E : List Employee) :
    (unifiedDF parse sales P D E).length =
      ((mergedDF sales P D E).filter fun r => (parse r.sale_date).isSome).length := by
  unfold unifiedDF
  rw [dateFilter_length, List.filter_map, List.length_map]
  congr 1

/-! ### The successful-run elimination -/

theorem pipeline_ok {parse : String → Option Date} {customers : List Customer}
    {sales : List Sale} {P : ProductsTable} {D : List Discount} {E : List Employee}
    {out : Output} (h : pipeline parse customers sales P D E = .ok out) :
    out = okOutput parse sales P D E ∧ sales ≠ [] ∧ P.rows ≠ [] ∧ D ≠ [] := by
  unfold pipeline at h
  by_cases h1 : sales.isEmpty || P.rows.isEmpty
  · rw [if_pos h1] at h
    exact absurd h (by simp)
  · rw [if_neg h1] at h
    by_cases h2 : D.isEmpty
    · rw [if_pos h2] at h
      exact absurd h (by simp)
    · rw [if_neg h2] at h
      have hout : out = okOutput parse sales P D E := by
        cases h
        rfl
      simp only [Bool.or_eq_true, not_or, Bool.not_eq_true] at h1
      refine ⟨hout, ?_, ?_, ?_⟩
      · intro hs
        rw [hs] at h1
        simp at h1
      · intro hp
        rw [hp] at h1
        simp at h1
      · intro hd
        rw [hd] at h2
        simp at h2

/-! ### Group-by partition sums -/

theorem sum_filter_map_eq {α : Type} (p : α → Bool) (g : α → Rat) (l : List α) :
    ((l.filter p).map g).sum = (l.map fun a => if p a then g a else 0).sum := by
  induction l with
  | nil => rfl
  | cons a rest ih =>
    by_cases h : p a <;> simp [List.filter_cons, h, ih]

theorem sum_map_swap {κ α : Type} (ks : List κ) (l : List α) (h : κ → α → Rat) :
    (ks.map fun k => (l.map (h k)).sum).sum =
      (l.map fun a => (ks.map fun k => h k a).sum).sum := by
  induction ks with
  | nil =>
    simp only [List.map_nil, List.sum_nil]
    refine (List.sum_eq_zero ?_).symm
    intro x hx
    rw [List.mem_map] at hx
    obtain ⟨a, _, rfl⟩ := hx
    rfl
  | cons k ks ih =>
    simp only [List.map_cons, List.sum_cons, ih, List.sum_map_add]

theorem sum_single_hit {κ : Type} [BEq κ] [LawfulBEq κ] {ks : List κ} {x : κ} (c : Rat)
    (hx : x ∈ ks) (nd : ks.Nodup) :
    (ks.map fun k => if x == k then c else 0).sum = c := by
  induction ks with
  | nil => exact absurd hx (List.not_mem_nil x)
  | cons k ks ih =>
    rw [List.nodup_cons] at nd
    by_cases hxk : x = k
    · subst hxk
      simp only [List.map_cons, List.sum_cons, beq_self_eq_true, if_true]
      have hz : (ks.map fun b => if x == b then c else 0).sum = 0 := by
        refine List.sum_eq_zero ?_
        intro y hy
        rw [List.mem_map] at hy
        obtain ⟨b, hb, rfl⟩ := hy
        have hf : (x == b) = false := by
          refine beq_eq_false_iff_ne.2 ?_
          intro hh
          exact nd.1 (hh ▸ hb)
        rw [hf]
        rfl
      rw [hz, add_zero]
    · have hxks : x ∈ ks := by
        rcases List.mem_cons.1 hx with h | h
        · exact absurd h hxk
        · exact h
      simp only [List.map_cons, List.sum_cons]
      rw [beq_eq_false_iff_ne.2 hxk]
      rw [if_neg (by simp), ih hxks nd.2, zero_add]

theorem groupSum_partition {α κ : Type} [DecidableEq κ] [BEq κ] [LawfulBEq κ]
    (key : α → Option κ) (g : α → Rat) (l : List α) :
    (((l.filterMap key).dedup).map fun k =>
        ((l.filter fun a => key a == some k).map g).sum).sum =
      ((l.filter fun a => (key a).isSome).map g).sum := by
  have step1 : (((l.filterMap key).dedup).map fun k =>
      ((l.filter fun a => key a == some k).map g).sum) =
      ((l.filterMap key).dedup).map fun k =>
        (l.map fun a => if key a == some k then g a else 0).sum :=
    List.map_congr_left fun k _ => sum_filter_map_eq _ g l
  rw [step1, sum_map_swap, sum_filter_map_eq]
  congr 1
  apply List.map_congr_left
  intro a ha
  cases hk : key a with
  | none =>
    have hz : (((l.filterMap key).dedup).map
        fun k => if ((none : Option κ) == some k) then g a else 0).sum = 0 := by
      refine List.sum_eq_zero ?_
      intro y hy
      rw [List.mem_map] at hy
      obtain ⟨k, _, rfl⟩ := hy
      rfl
    rw [hz]
    rfl
  | some x =>
    have hx : x ∈ (l.filterMap key).dedup := by
      rw [List.mem_dedup, List.mem_filterMap]
      exact ⟨a, ha, hk⟩
    have heq : (fun k => if (some x == some k : Bool) then g a else 0) =
        fun k => if (x == k) then g a else 0 := by
      funext k
      rfl
    rw [heq, sum_single_hit (g a) hx (List.nodup_dedup _)]
    rfl

theorem groupSumTotal_partition {α κ : Type} [DecidableEq κ] [BEq κ] [LawfulBEq κ]
    (key : α → κ) (g : α → Rat) (l : List α) :
    (((l.map key).dedup).map fun k =>
        ((l.filter fun a => key a == k).map g).sum).sum = (l.map g).sum := by
  have step1 : (((l.map key).dedup).map fun k =>
      ((l.filter fun a => key a == k).map g).sum) =
      ((l.map key).dedup).map fun k =>
        (l.map fun a => if key a == k then g a else 0).sum :=
    List.map_congr_left fun k _ => sum_filter_map_eq _ g l
  rw [step1, sum_map_swap]
  have step2 : (l.map fun a => (((l.map key).dedup).map
      fun k => if key a == k then g a else 0).sum) = l.map g := by
    apply List.map_congr_left
    intro a ha
    have hx : key a ∈ (l.map key).dedup := by
      rw [List.mem_dedup, List.mem_map]
      exact ⟨a, ha, rfl⟩
    exact sum_single_hit (g a) hx (List.nodup_dedup _)
  rw [step2]

/-! ### Uniqueness helper -/

theorem nodup_filter_le_one {α κ : Type} [BEq κ] [LawfulBEq κ] {l : List α} {f : α → κ}
    (h : (l.map f).Nodup) (k : κ) : (l.filter fun x => f x == k).length ≤ 1 := by
  induction l with
  | nil => simp
  | cons a rest ih =>
    rw [List.map_cons, List.nodup_cons] at h
    rw [List.filter_cons]
    by_cases hak : (f a == k) = true
    · rw [if_pos hak]
      have hk : f a = k := beq_iff_eq.1 hak
      have hrest : rest.filter (fun x => f x == k) = [] := by
        rw [List.filter_eq_nil_iff]
        intro x hx hfx
        have hxk : f x = k := beq_iff_eq.1 hfx
        exact h.1 (by rw [List.mem_map]; exact ⟨x, hx, by rw [hxk, hk]⟩)
      rw [hrest]
      simp
    · rw [if_neg hak]
      exact ih h.2

/-! ### The claims -/

/-- C1 (code bug): on the exact inputs of Scenario A (one Sale, one matching
Product, empty Discounts, empty Employees) the script does not produce the
claimed UnifiedRecord and ProductSalesSummary: line 79 reads the
`discount_percent` column of the empty (hence column-less) Discounts
DataFrame and raises an uncaught `KeyError`, so the run terminates with
non-zero status and no output. -/
theorem pipeline_scenarioA_keyerror :
    pipeline parseDate [] [⟨1, 1, 9, 2, "2024-01-05"⟩]
      ⟨[⟨1, "Widget", some 50⟩], true⟩ [] [] = .error .keyErrorDiscounts := rfl

/-- C2: the run aborts with the fatal `exit(1)` gate, before any merge and
before any report artifact exists, exactly when the Sales table or the
Products table is empty after the adapters run; when both are non-empty the
gate passes and execution continues past it. -/
theorem pipeline_fatal_gate_iff (parse : String → Option Date) (customers : List Customer)
    (sales : List Sale) (products : ProductsTable) (discounts : List Discount)
    (employees : List Employee) :
    pipeline parse customers sales products discounts employees =
        .error .criticalDataMissing ↔ sales = [] ∨ products.rows = [] := by
  unfold pipeline
  by_cases h1 : (sales.isEmpty || products.rows.isEmpty) = true
  · rw [if_pos h1]
    simp only [Bool.or_eq_true, List.isEmpty_iff] at h1
    exact ⟨fun _ => h1, fun _ => rfl⟩
  · rw [if_neg h1]
    simp only [Bool.or_eq_true, List.isEmpty_iff] at h1
    push_neg at h1
    constructor
    · intro h
      by_cases h2 : discounts.isEmpty = true
      · rw [if_pos h2] at h
        exact absurd h (by simp)
      · rw [if_neg h2] at h
        exact absurd h (by simp)
    · intro h
      rcases h with h | h
      · exact absurd h h1.1
      · exact absurd h h1.2

/-- C4 (code bug): an empty Discounts table — the substituted result of a
failed flat-file read — is *not* absorbed: with non-empty Sales and Products
the run crashes at line 79 with an uncaught `KeyError` after the Validator
gate has passed, whereas an empty Employees table alone is absorbed and the
pipeline completes. -/
theorem pipeline_empty_discounts_crash :
    pipeline parseDate [] [⟨1, 1, 7, 3, "2024-02-10"⟩] ⟨[⟨1, "Gizmo", some 20⟩], true⟩ [] []
        = .error .keyErrorDiscounts ∧
      pipeline parseDate [] [⟨1, 1, 7, 3, "2024-02-10"⟩] ⟨[⟨1, "Gizmo", some 20⟩], true⟩
          [⟨2, none⟩] [] =
        .ok (okOutput parseDate [⟨1, 1, 7, 3, "2024-02-10"⟩] ⟨[⟨1, "Gizmo", some 20⟩], true⟩
          [⟨2, none⟩] []) :=
  ⟨rfl, rfl⟩

/-- C6: the merged DataFrame (the UnifiedRecord rows before the date filter)
is the in-order concatenation of one block per Sales row, and — when
`product_id` is unique in Products and `id` is unique in Employees — the
block of Sale row `s` has exactly `max 1 (number of Discount rows matching
s.product_id)` rows: the Product and Employee left joins never drop or
multiply a Sale row. -/
theorem pipeline_join_cardinality (sales : List Sale) (products : ProductsTable)
    (discounts : List Discount) (employees : List Employee)
    (hP : (products.rows.map fun p => p.product_id).Nodup)
    (hE : (employees.map fun e => e.id).Nodup) :
    mergedDF sales products discounts employees =
        (sales.flatMap fun s => mergedDF [s] products discounts employees) ∧
      ∀ s ∈ sales, (mergedDF [s] products discounts employees).length =
        max 1 (discounts.filter fun d => d.product_id == s.product_id).length := by
  refine ⟨mergedDF_flatMap sales products discounts employees, fun s _ => ?_⟩
  exact mergedDF_single_length s discounts (fun pid => nodup_filter_le_one hP pid)
    (fun eid => nodup_filter_le_one hE eid)

/-- Witness for C6 at a concrete input (two Discount rows match the sale's
product, so its block has two rows). -/
theorem pipeline_join_cardinality_witness :
    (([⟨1, "Widget", some 50⟩, ⟨2, "Bolt", some 7⟩] : List Product).map
        fun p => p.product_id).Nodup ∧
    (([⟨9, "Ana"⟩] : List Employee).map fun e => e.id).Nodup ∧
    (mergedDF [⟨1, 1, 9, 2, "2024-01-05"⟩] ⟨[⟨1, "Widget", some 50⟩, ⟨2, "Bolt", some 7⟩], true⟩
        [⟨1, some 10⟩, ⟨1, some 20⟩] [⟨9, "Ana"⟩] =
      ([⟨1, 1, 9, 2, "2024-01-05"⟩] : List Sale).flatMap fun s =>
        mergedDF [s] ⟨[⟨1, "Widget", some 50⟩, ⟨2, "Bolt", some 7⟩], true⟩
          [⟨1, some 10⟩, ⟨1, some 20⟩] [⟨9, "Ana"⟩]) ∧
    ∀ s ∈ ([⟨1, 1, 9, 2, "2024-01-05"⟩] : List Sale),
      (mergedDF [s] ⟨[⟨1, "Widget", some 50⟩, ⟨2, "Bolt", some 7⟩], true⟩
          [⟨1, some 10⟩, ⟨1, some 20⟩] [⟨9, "Ana"⟩]).length =
        max 1 (([⟨1, some 10⟩, ⟨1, some 20⟩] : List Discount).filter
          fun d => d.product_id == s.product_id).length :=
  ⟨by decide, by decide,
    pipeline_join_cardinality _ _ _ _ (by decide) (by decide)⟩

/-- C7: the number of UnifiedRecord rows in a successful run equals the
number of merged rows whose `sale_date` parses — the date filter keeps a
merged Sale row exactly when its date parses, and no other pipeline step
drops rows. -/
theorem pipeline_date_filter_only_drop (parse : String → Option Date)
    (customers : List Customer) (sales : List Sale) (products : ProductsTable)
    (discounts : List Discount) (employees : List Employee) (out : Output)
    (h : pipeline parse customers sales products discounts employees = .ok out) :
    out.unified.length = ((mergedDF sales products discounts employees).filter
      fun r => (parse r.sale_date).isSome).length := by
  obtain ⟨rfl, -, -, -⟩ := pipeline_ok h
  exact unifiedDF_length parse sales products discounts employees

/-- Witness for C7: one parseable and one unparseable `sale_date`; exactly
the parseable row survives. -/
theorem pipeline_date_filter_only_drop_witness :
    pipeline parseDate [] [⟨1, 1, 9, 2, "2024-01-05"⟩, ⟨2, 1, 9, 1, "not-a-date"⟩]
        ⟨[⟨1, "Widget", some 50⟩], true⟩ [⟨1, some 10⟩] [] =
      .ok (okOutput parseDate [⟨1, 1, 9, 2, "2024-01-05"⟩, ⟨2, 1, 9, 1, "not-a-date"⟩]
        ⟨[⟨1, "Widget", some 50⟩], true⟩ [⟨1, some 10⟩] []) ∧
    (okOutput parseDate [⟨1, 1, 9, 2, "2024-01-05"⟩, ⟨2, 1, 9, 1, "not-a-date"⟩]
        ⟨[⟨1, "Widget", some 50⟩], true⟩ [⟨1, some 10⟩] []).unified.length =
      ((mergedDF [⟨1, 1, 9, 2, "2024-01-05"⟩, ⟨2, 1, 9, 1, "not-a-date"⟩]
          ⟨[⟨1, "Widget", some 50⟩], true⟩ [⟨1, some 10⟩] []).filter
        fun r => (parseDate r.sale_date).isSome).length ∧
    (okOutput parseDate [⟨1, 1, 9, 2, "2024-01-05"⟩, ⟨2, 1, 9, 1, "not-a-date"⟩]
        ⟨[⟨1, "Widget", some 50⟩], true⟩ [⟨1, some 10⟩] []).unified.length = 1 :=
  ⟨rfl, pipeline_date_filter_only_drop parseDate [] _ _ _ _ _ rfl, by decide⟩

/-- C10: the final UnifiedRecord table of a successful run is the in-order
concatenation, over the Sales rows in their original order, of each Sale's
own (transformed, date-filtered) row block — so all rows tracing to an
earlier Sale precede all rows tracing to a later one. -/
theorem pipeline_sales_order_preserved (parse : String → Option Date)
    (customers : List Customer) (sales : List Sale) (products : ProductsTable)
    (discounts : List Discount) (employees : List Employee) (out : Output)
    (h : pipeline parse customers sales products discounts employees = .ok out) :
    out.unified = sales.flatMap fun s => unifiedDF parse [s] products discounts employees := by
  obtain ⟨rfl, -, -, -⟩ := pipeline_ok h
  exact unifiedDF_flatMap parse sales products discounts employees

/-- Witness for C10 at a concrete two-Sale input. -/
theorem pipeline_sales_order_preserved_witness :
    pipeline parseDate [] [⟨1, 1, 9, 2, "2024-01-05"⟩, ⟨2, 1, 8, 1, "2024-02-06"⟩]
        ⟨[⟨1, "Widget", some 50⟩], true⟩ [⟨1, some 10⟩] [] =
      .ok (okOutput parseDate [⟨1, 1, 9, 2, "2024-01-05"⟩, ⟨2, 1, 8, 1, "2024-02-06"⟩]
        ⟨[⟨1, "Widget", some 50⟩], true⟩ [⟨1, some 10⟩] []) ∧
    (okOutput parseDate [⟨1, 1, 9, 2, "2024-01-05"⟩, ⟨2, 1, 8, 1, "2024-02-06"⟩]
        ⟨[⟨1, "Widget", some 50⟩], true⟩ [⟨1, some 10⟩] []).unified =
      ([⟨1, 1, 9, 2, "2024-01-05"⟩, ⟨2, 1, 8, 1, "2024-02-06"⟩] : List Sale).flatMap fun s =>
        unifiedDF parseDate [s] ⟨[⟨1, "Widget", some 50⟩], true⟩ [⟨1, some 10⟩] [] :=
  ⟨rfl, pipeline_sales_order_preserved parseDate [] _ _ _ _ _ rfl⟩

/-- C8: in a successful run, every UnifiedRecord's `employee_name` follows
the conditional-join policy of lines 85-88: the literal `"Unknown"` for every
row when the Employees table is empty; a null when Employees is non-empty and
no Employee `id` matches the record's `employee_id`; and a matched employee's
name when a match exists. -/
theorem pipeline_employee_join_policy (parse : String → Option Date)
    (customers : List Customer) (sales : List Sale) (products : ProductsTable)
    (discounts : List Discount) (employees : List Employee) (out : Output)
    (h : pipeline parse customers sales products discounts employees = .ok out)
    (r : URow) (hr : r ∈ out.unified) :
    (employees = [] → r.employee_name = some "Unknown") ∧
    (employees ≠ [] → (∀ e ∈ employees, ¬e.id = r.employee_id) →
      r.employee_name = none) ∧
    (employees ≠ [] → ∀ e0 ∈ employees, e0.id = r.employee_id →
      ∃ e ∈ employees, e.id = r.employee_id ∧ r.employee_name = some e.employee_name) := by
  obtain ⟨rfl, -, -, -⟩ := pipeline_ok h
  have hr' : r ∈ unifiedDF parse sales products discounts employees := hr
  obtain ⟨m, hm, d, hd, rfl⟩ := mem_unifiedDF hr'
  have hname : (finishRow (computeRow products.hasUnitPrice m) d).employee_name
      = m.employee_name := rfl
  have hid : (finishRow (computeRow products.hasUnitPrice m) d).employee_id
      = m.employee_id := rfl
  rw [hname, hid]
  have hm' : m ∈ mergeEmployees (mergeDiscounts (mergeProducts sales products.rows)
      (fillDiscounts discounts)) employees := hm
  obtain ⟨r2, hr2, hsame, hcases⟩ := mem_mergeEmployees hm'
  have hid2 : m.employee_id = r2.employee_id := hsame.2.2.1
  rcases hcases with ⟨hE, hname2⟩ | ⟨hne, hsub⟩
  · exact ⟨fun _ => hname2, fun hne _ => absurd hE hne, fun hne _ _ _ => absurd hE hne⟩
  · refine ⟨fun hE => absurd hE hne, ?_, ?_⟩
    · intro _ hnom
      rcases hsub with ⟨_, hnone⟩ | ⟨e, heE, heid, -⟩
      · exact hnone
      · exact absurd (heid.trans hid2.symm) (hnom e heE)
    · intro _ e0 he0 hid0
      rcases hsub with ⟨hno, -⟩ | ⟨e, heE, heid, hnm⟩
      · exact absurd (hid0.trans hid2) (hno e0 he0)
      · exact ⟨e, heE, heid.trans hid2.symm, hnm⟩

/-- C9: in a successful run every UnifiedRecord satisfies
`total_price = quantity * unit_price` and
`discounted_price = total_price * (1 - discount_percent / 100)` (with pandas
null propagation), with no clamping: a negative `discount_percent` on a
positive `total_price` yields a strictly larger `discounted_price`, and a
`discount_percent` of 10 on a `total_price` of 100 yields 90. -/
theorem pipeline_derived_pricing (parse : String → Option Date)
    (customers : List Customer) (sales : List Sale) (products : ProductsTable)
    (discounts : List Discount) (employees : List Employee) (out : Output)
    (h : pipeline parse customers sales products discounts employees = .ok out)
    (r : URow) (hr : r ∈ out.unified) :
    ∃ dp : Rat, r.discount_percent = some dp ∧
      r.total_price = r.unit_price.map (fun u => r.quantity * u) ∧
      r.discounted_price = r.total_price.map (fun t => t * (1 - dp / 100)) ∧
      (∀ t : Rat, r.total_price = some t → 0 < t → dp < 0 →
        ∃ v : Rat, r.discounted_price = some v ∧ t < v) ∧
      (dp = 10 → r.total_price = some 100 → r.discounted_price = some 90) := by
  obtain ⟨rfl, -, -, -⟩ := pipeline_ok h
  have hr' : r ∈ unifiedDF parse sales products discounts employees := hr
  obtain ⟨m, hm, d, hd, rfl⟩ := mem_unifiedDF hr'
  refine ⟨m.discount_percent.getD 0, rfl, rfl, rfl, ?_, ?_⟩
  · intro t ht hpos hneg
    have hdisc : (finishRow (computeRow products.hasUnitPrice m) d).discounted_price =
        ((finishRow (computeRow products.hasUnitPrice m) d).total_price).map
          (fun x => x * (1 - m.discount_percent.getD 0 / 100)) := rfl
    rw [ht] at hdisc
    refine ⟨t * (1 - m.discount_percent.getD 0 / 100), hdisc, ?_⟩
    have h1 : (1 : Rat) < 1 - m.discount_percent.getD 0 / 100 := by
      have hq : m.discount_percent.getD 0 / 100 < 0 :=
        div_neg_of_neg_of_pos hneg (by norm_num)
      linarith
    nlinarith
  · intro hdp h100
    have hdisc : (finishRow (computeRow products.hasUnitPrice m) d).discounted_price =
        ((finishRow (computeRow products.hasUnitPrice m) d).total_price).map
          (fun x => x * (1 - m.discount_percent.getD 0 / 100)) := rfl
    rw [h100, hdp] at hdisc
    rw [hdisc]
    norm_num

/-- Concrete input tables for the C8 witness: Employees non-empty, two
Sales — one whose `employee_id` matches, one unmatched. -/
def w8sales : List Sale := [⟨1, 1, 9, 2, "2024-01-05"⟩, ⟨2, 1, 7, 1, "2024-01-06"⟩]

def w8products : ProductsTable := ⟨[⟨1, "Widget", some 50⟩], true⟩

def w8discounts : List Discount := [⟨1, some 10⟩]

def w8employees : List Employee := [⟨9, "Ana"⟩]

def w8out : Output := okOutput parseDate w8sales w8products w8discounts w8employees

/-- The UnifiedRecord of the unmatched Sale (employee_id 7). -/
def w8row : URow := w8out.unified.get ⟨1, by decide⟩

/-- Witness for C8: with a non-empty Employees table, the record of the
unmatched Sale gets a null `employee_name`, not `"Unknown"`. -/
theorem pipeline_employee_join_policy_witness :
    pipeline parseDate [] w8sales w8products w8discounts w8employees = .ok w8out ∧
    w8row ∈ w8out.unified ∧
    w8row.employee_name = none ∧
    w8row.employee_id = 7 ∧
    ((w8employees = [] → w8row.employee_name = some "Unknown") ∧
      (w8employees ≠ [] → (∀ e ∈ w8employees, ¬e.id = w8row.employee_id) →
        w8row.employee_name = none) ∧
      (w8employees ≠ [] → ∀ e0 ∈ w8employees, e0.id = w8row.employee_id →
        ∃ e ∈ w8employees, e.id = w8row.employee_id ∧
          w8row.employee_name = some e.employee_name)) :=
  ⟨rfl, List.get_mem w8out.unified 1 (by decide), rfl, rfl,
    pipeline_employee_join_policy parseDate [] w8sales w8products w8discounts w8employees
      w8out rfl w8row (List.get_mem w8out.unified 1 (by decide))⟩

/-- Concrete input tables for the C9 witness: the spec's Scenario B
(Discounts grant 10 percent on the sold product). -/
def w9sales : List Sale := [⟨1, 1, 9, 2, "2024-01-05"⟩]

def w9products : ProductsTable := ⟨[⟨1, "Widget", some 50⟩], true⟩

def w9discounts : List Discount := [⟨1, some 10⟩]

def w9out : Output := okOutput parseDate w9sales w9products w9discounts []

/-- The single UnifiedRecord of Scenario B. -/
def w9row : URow := w9out.unified.get ⟨0, by decide⟩

/-- Witness for C9 at the Scenario B input. -/
theorem pipeline_derived_pricing_witness :
    pipeline parseDate [] w9sales w9products w9discounts [] = .ok w9out ∧
    w9row ∈ w9out.unified ∧
    w9row.discount_percent = some 10 ∧
    (∃ dp : Rat, w9row.discount_percent = some dp ∧
      w9row.total_price = w9row.unit_price.map (fun u => w9row.quantity * u) ∧
      w9row.discounted_price = w9row.total_price.map (fun t => t * (1 - dp / 100)) ∧
      (∀ t : Rat, w9row.total_price = some t → 0 < t → dp < 0 →
        ∃ v : Rat, w9row.discounted_price = some v ∧ t < v) ∧
      (dp = 10 → w9row.total_price = some 100 →
        w9row.discounted_price = some 90)) :=
  ⟨rfl, List.get_mem w9out.unified 0 (by decide), rfl,
    pipeline_derived_pricing parseDate [] w9sales w9products w9discounts [] w9out rfl
      w9row (List.get_mem w9out.unified 0 (by decide))⟩

/-- C3 counterexample: Products has a `unit_price` column, but the Sale's
`product_id` (2) matches no Product row; `df.get('unit_price', 100)` keeps
the existing column, so the final UnifiedRecord's `unit_price` is null, not
the default 100 — the claim's "or the row is unmatched" case fails. -/
theorem pipeline_unit_price_null_cex :
    (pipeline parseDate [] [⟨1, 2, 9, 2, "2024-01-05"⟩] ⟨[⟨1, "Widget", some 50⟩], true⟩
        [⟨1, some 5⟩] []).map (fun o => o.unified.map fun r => r.unit_price) =
      .ok [none] := rfl

/-- C3 (amended): in every successful run, every UnifiedRecord's
`discount_percent` is non-null; `unit_price` is the scalar default 100 for
every record exactly when the `unit_price` column is absent from Products;
and when the column is present, `unit_price` is the joined Product row's
(possibly null) `unit_price` — hence null, not 100, for an unmatched row. -/
theorem pipeline_defaulting_policy (parse : String → Option Date)
    (customers : List Customer) (sales : List Sale) (products : ProductsTable)
    (discounts : List Discount) (employees : List Employee) (out : Output)
    (h : pipeline parse customers sales products discounts employees = .ok out)
    (r : URow) (hr : r ∈ out.unified) :
    r.discount_percent.isSome = true ∧
    (products.hasUnitPrice = false → r.unit_price = some 100) ∧
    (products.hasUnitPrice = true →
      ((∃ p ∈ products.rows, p.product_id = r.product_id ∧ r.unit_price = p.unit_price) ∨
        ((∀ p ∈ products.rows, ¬p.product_id = r.product_id) ∧ r.unit_price = none))) := by
  obtain ⟨rfl, -, -, -⟩ := pipeline_ok h
  have hr' : r ∈ unifiedDF parse sales products discounts employees := hr
  obtain ⟨m, hm, d, hd, rfl⟩ := mem_unifiedDF hr'
  refine ⟨rfl, ?_, ?_⟩
  · intro hUP
    show (if products.hasUnitPrice then m.unit_price else some 100) = some 100
    rw [hUP]
    simp
  · intro hUP
    have hup : (finishRow (computeRow products.hasUnitPrice m) d).unit_price
        = m.unit_price := by
      show (if products.hasUnitPrice then m.unit_price else some 100) = m.unit_price
      rw [hUP]
      simp
    have hpid : (finishRow (computeRow products.hasUnitPrice m) d).product_id
        = m.product_id := rfl
    rw [hup, hpid]
    have hm' : m ∈ mergeEmployees (mergeDiscounts (mergeProducts sales products.rows)
        (fillDiscounts discounts)) employees := hm
    obtain ⟨r2, hr2, hsameE, -⟩ := mem_mergeEmployees hm'
    obtain ⟨r1, hr1, hsameD⟩ := mem_mergeDiscounts hr2
    obtain ⟨s, hs, hf⟩ := mem_mergeProducts hr1
    have hup2 : m.unit_price = r1.unit_price :=
      (hsameE.2.2.2.2.2.2.1).trans (hsameD.2.2.2.2.2.2.1)
    have hpid2 : m.product_id = r1.product_id := (hsameE.2.1).trans (hsameD.2.1)
    obtain ⟨-, hpid3, -, -, -, -, -, hcases⟩ := hf
    rw [hup2, hpid2]
    rcases hcases with ⟨hnone, -, hupn⟩ | ⟨p, hpP, hpidp, -, hupp⟩
    · exact .inr ⟨fun p hp hpm => hnone p hp (hpm.trans hpid3), hupn⟩
    · exact .inl ⟨p, hpP, hpidp.trans hpid3.symm, hupp⟩

/-- Concrete input tables for the C3 witness: the column exists and the Sale
matches the Product, so `unit_price` is the joined 50. -/
def w3sales : List Sale := [⟨1, 1, 9, 2, "2024-01-05"⟩]

def w3products : ProductsTable := ⟨[⟨1, "Widget", some 50⟩], true⟩

def w3discounts : List Discount := [⟨1, some 0⟩]

def w3employees : List Employee := [⟨9, "Ana"⟩]

def w3out : Output := okOutput parseDate w3sales w3products w3discounts w3employees

def w3row : URow := w3out.unified.get ⟨0, by decide⟩

/-- Witness for the amended C3 at a concrete matched input. -/
theorem pipeline_defaulting_policy_witness :
    pipeline parseDate [] w3sales w3products w3discounts w3employees = .ok w3out ∧
    w3row ∈ w3out.unified ∧
    w3row.unit_price = some 50 ∧
    (w3row.discount_percent.isSome = true ∧
      (w3products.hasUnitPrice = false → w3row.unit_price = some 100) ∧
      (w3products.hasUnitPrice = true →
        ((∃ p ∈ w3products.rows, p.product_id = w3row.product_id ∧
            w3row.unit_price = p.unit_price) ∨
          ((∀ p ∈ w3products.rows, ¬p.product_id = w3row.product_id) ∧
            w3row.unit_price = none)))) :=
  ⟨rfl, List.get_mem w3out.unified 0 (by decide), rfl,
    pipeline_defaulting_policy parseDate [] w3sales w3products w3discounts w3employees
      w3out rfl w3row (List.get_mem w3out.unified 0 (by decide))⟩

/-! ### Bridging the summaries to the generic partition lemmas -/

theorem sumBy_fst_sum (key : URow → Option String) (rows : List URow) :
    ((sumBy key rows).map fun x => x.2.1).sum =
      ((rows.filter fun r => (key r).isSome).map fun r => r.quantity).sum := by
  have h1 : ((sumBy key rows).map fun x => x.2.1) =
      (((rows.filterMap key).dedup).map fun k =>
        ((rows.filter fun a => key a == some k).map fun r => r.quantity).sum) := by
    unfold sumBy
    rw [List.map_map]
    rfl
  rw [h1]
  exact groupSum_partition key (fun r => r.quantity) rows

theorem sumBy_snd_sum (key : URow → Option String) (rows : List URow) :
    ((sumBy key rows).map fun x => x.2.2).sum =
      ((rows.filter fun r => (key r).isSome).map
        fun r => r.discounted_price.getD 0).sum := by
  have h1 : ((sumBy key rows).map fun x => x.2.2) =
      (((rows.filterMap key).dedup).map fun k =>
        ((rows.filter fun a => key a == some k).map
          fun r => r.discounted_price.getD 0).sum) := by
    unfold sumBy
    rw [List.map_map]
    rfl
  rw [h1]
  exact groupSum_partition key (fun r => r.discounted_price.getD 0) rows

theorem monthlyAgg_sum (rows : List URow) :
    ((monthlyAgg rows).map fun x => x.2).sum =
      (rows.map fun r => r.discounted_price.getD 0).sum := by
  have h1 : ((monthlyAgg rows).map fun x => x.2) =
      (((rows.map fun r => r.month).dedup).map fun k =>
        ((rows.filter fun a => a.month == k).map
          fun r => r.discounted_price.getD 0).sum) := by
    unfold monthlyAgg
    rw [List.map_map]
    rfl
  rw [h1]
  exact groupSumTotal_partition (fun r => r.month) (fun r => r.discounted_price.getD 0) rows

/-- The successful-run payload of the C5 counterexample input: one Sale
whose `product_id` (2) matches no Product row. -/
def c5cexOut : Output :=
  okOutput parseDate [⟨1, 2, 9, 2, "2024-01-05"⟩] ⟨[⟨1, "Widget", some 50⟩], true⟩
    [⟨1, some 5⟩] []

/-- C5 counterexample: a Sale with no Products match has a null
`product_name`; `groupby` drops it, so the product summary's total_quantity
column sums to 0 while the quantity over the full UnifiedRecord set sums to
2 — the summary is not a partition of the rows with null grouping keys. -/
theorem pipeline_aggregate_partition_cex :
    pipeline parseDate [] [⟨1, 2, 9, 2, "2024-01-05"⟩] ⟨[⟨1, "Widget", some 50⟩], true⟩
        [⟨1, some 5⟩] [] = .ok c5cexOut ∧
    c5cexOut.product_sales = [] ∧
    c5cexOut.unified.map (fun r => r.quantity) = [2] ∧
    (c5cexOut.product_sales.map fun x => x.2.1).sum ≠
      (c5cexOut.unified.map fun r => r.quantity).sum := by
  have h2 : c5cexOut.product_sales = [] := by decide
  have h3 : c5cexOut.unified.map (fun r => r.quantity) = [2] := by decide
  refine ⟨rfl, h2, h3, ?_⟩
  rw [h2, h3]
  norm_num

/-- C5 (amended): in every successful run each summary is a complete
partition of the UnifiedRecord rows whose grouping key is non-null — rows
with a null key are excluded from that summary's groups — so each summed
column over all groups equals the same aggregate over exactly those rows;
the monthly summary (whose key is never null) covers the full set. -/
theorem pipeline_aggregate_partition (parse : String → Option Date)
    (customers : List Customer) (sales : List Sale) (products : ProductsTable)
    (discounts : List Discount) (employees : List Employee) (out : Output)
    (h : pipeline parse customers sales products discounts employees = .ok out) :
    ((out.product_sales.map fun x => x.2.1).sum =
        ((out.unified.filter fun r => r.product_name.isSome).map
          fun r => r.quantity).sum) ∧
    ((out.product_sales.map fun x => x.2.2).sum =
        ((out.unified.filter fun r => r.product_name.isSome).map
          fun r => r.discounted_price.getD 0).sum) ∧
    ((out.employee_sales.map fun x => x.2.1).sum =
        ((out.unified.filter fun r => r.employee_name.isSome).map
          fun r => r.quantity).sum) ∧
    ((out.employee_sales.map fun x => x.2.2).sum =
        ((out.unified.filter fun r => r.employee_name.isSome).map
          fun r => r.discounted_price.getD 0).sum) ∧
    ((out.monthly_sales.map fun x => x.2).sum =
        (out.unified.map fun r => r.discounted_price.getD 0).sum) := by
  obtain ⟨rfl, -, -, -⟩ := pipeline_ok h
  exact ⟨sumBy_fst_sum (fun r => r.product_name) _,
    sumBy_snd_sum (fun r => r.product_name) _,
    sumBy_fst_sum (fun r => r.employee_name) _,
    sumBy_snd_sum (fun r => r.employee_name) _,
    monthlyAgg_sum _⟩

/-- Concrete input tables for the C5 witness: one Sale with a null
`product_name` (dropped from the product summary) and one matched Sale. -/
def w5sales : List Sale := [⟨1, 2, 9, 2, "2024-01-05"⟩, ⟨2, 1, 8, 1, "2024-03-07"⟩]

def w5products : ProductsTable := ⟨[⟨1, "Widget", some 50⟩], true⟩

def w5discounts : List Discount := [⟨1, some 50⟩]

def w5out : Output := okOutput parseDate w5sales w5products w5discounts []

/-- Witness for the amended C5 at a concrete input. -/
theorem pipeline_aggregate_partition_witness :
    pipeline parseDate [] w5sales w5products w5discounts [] = .ok w5out ∧
    (((w5out.product_sales.map fun x => x.2.1).sum =
        ((w5out.unified.filter fun r => r.product_name.isSome).map
          fun r => r.quantity).sum) ∧
    ((w5out.product_sales.map fun x => x.2.2).sum =
        ((w5out.unified.filter fun r => r.product_name.isSome).map
          fun r => r.discounted_price.getD 0).sum) ∧
    ((w5out.employee_sales.map fun x => x.2.1).sum =
        ((w5out.unified.filter fun r => r.employee_name.isSome).map
          fun r => r.quantity).sum) ∧
    ((w5out.employee_sales.map fun x => x.2.2).sum =
        ((w5out.unified.filter fun r => r.employee_name.isSome).map
          fun r => r.discounted_price.getD 0).sum) ∧
    ((w5out.monthly_sales.map fun x => x.2).sum =
        (w5out.unified.map fun r => r.discounted_price.getD 0).sum)) :=
  ⟨rfl, pipeline_aggregate_partition parseDate [] w5sales w5products w5discounts []
    w5out rfl⟩
